import Mathlib

/-!
Verification of the happyreaper CLI client.

A shallow embedding, in Lean 4, of the pure parts of the `happyreaper`
command-line client (Go): flag-value parsing for the enum-like types
(`RunState`, `ScheduleState`, `Parallelism`), calendar-date flag parsing
(`myTime.Set`), the column-family overlap test (`contains`), the client-side
filtering of `listRepairs` and `printCluster`, schedule sorting
(`sortSchedules`), the response-status handling shared by the endpoint
operations, and the subcommand dispatch table (`commands` / `findCommand`).

Modelling conventions:
  * Go strings are modelled as Lean `String`.
  * `time.Time` instants are modelled as `Int` (an abstract totally ordered
    instant scale); the Go zero time (0001-01-01 UTC) is instant `0`, and a
    calendar date maps to the instant given by its day count since that date.
  * `*time.Time` (nullable) fields are `Option Int`.
  * the Go function `strings.EqualFold` is modelled by ASCII case folding (`goFold`);
    all keywords compared by the program are plain ASCII.
  * Fallible parsing returns a pair or `Option`/`Except`-like data rather
    than mutating through a pointer; a Go method `(p *T) Set(s)` becomes a
    function `T → String → T × Option String` returning the new stored value
    and the error message, mirroring that the Go code only assigns `*p` on
    success.
  * `float64` fields (`Intensity`) are omitted from the records: no verified
    property reads them, and floating point is outside the embedding.
-/

namespace Happyreaper

/-- ASCII lower-casing of one character, the case folding used to model
`strings.EqualFold` on the ASCII keywords of this program. -/
def asciiLower (c : Char) : Char :=
  if 65 ≤ c.toNat ∧ c.toNat ≤ 90 then Char.ofNat (c.toNat + 32) else c

/-- Case folding of a whole string (ASCII). -/
def goFold (s : String) : String :=
  String.mk (s.toList.map asciiLower)

/-- Model of `strings.EqualFold` (restricted to ASCII folding; every keyword
the program compares with `EqualFold` is ASCII). -/
def goEqualFold (a b : String) : Bool :=
  goFold a == goFold b

/-- One character of the Go `%q` escaping; control and non-ASCII escapes of
`strconv.Quote` are elided, which is exact for printable ASCII tokens. -/
def goQuoteChar (c : Char) : List Char :=
  if c = '\\' then ['\\', '\\']
  else if c = '"' then ['\\', '"']
  else [c]

/-- Model of the Go `%q` verb: the token surrounded by double quotes. -/
def goQuote (s : String) : String :=
  "\"" ++ String.mk (s.toList.map goQuoteChar).flatten ++ "\""

/-- Go `type RunState string` (repair.go); canonical values follow. -/
abbrev RunState := String

def NotStarted : RunState := "NOT_STARTED"

def Running : RunState := "RUNNING"

def Error : RunState := "ERROR"

def Done : RunState := "DONE"

def Paused : RunState := "PAUSED"

def Aborted : RunState := "ABORTED"

def Deleted : RunState := "DELETED"

/-- Go `func (s RunState) String() string` — the canonical serialization. -/
def RunState.string (s : RunState) : String := s

/-- Go `func (s *RunState) Set(str string) error` (repair.go): case-insensitive
keyword switch; on no match the stored value is left unchanged and
`errors.Errorf("invalid state %q", str)` is returned. -/
def RunState.set (s : RunState) (str : String) : RunState × Option String :=
  if goEqualFold str "not_started" then (NotStarted, none)
  else if goEqualFold str "running" then (Running, none)
  else if goEqualFold str "error" then (Error, none)
  else if goEqualFold str "done" then (Done, none)
  else if goEqualFold str "paused" then (Paused, none)
  else if goEqualFold str "aborted" then (Aborted, none)
  else if goEqualFold str "deleted" then (Deleted, none)
  else (s, some ("invalid state " ++ goQuote str))

/-- Go `type ScheduleState string` (schedule file); canonical values follow. -/
abbrev ScheduleState := String

def SActive : ScheduleState := "ACTIVE"

def SPaused : ScheduleState := "PAUSED"

def SDeleted : ScheduleState := "DELETED"

/-- Go `func (s ScheduleState) String() string`. -/
def ScheduleState.string (s : ScheduleState) : String := s

/-- Go `func (s *ScheduleState) Set(str string) error`. -/
def ScheduleState.set (s : ScheduleState) (str : String) : ScheduleState × Option String :=
  if goEqualFold str "active" then (SActive, none)
  else if goEqualFold str "paused" then (SPaused, none)
  else if goEqualFold str "deleted" then (SDeleted, none)
  else (s, some ("invalid state " ++ goQuote str))

/-- Go `type Parallelism string` (main.go); canonical values follow. -/
abbrev Parallelism := String

def Sequential : Parallelism := "SEQUENTIAL"

def Parallel : Parallelism := "PARALLEL"

def DatacenterAware : Parallelism := "DATACENTER_AWARE"

/-- Go `func (p Parallelism) String() string`. -/
def Parallelism.string (p : Parallelism) : String := p

/-- Go `func (p *Parallelism) Set(s string) error` (main.go). -/
def Parallelism.set (p : Parallelism) (s : String) : Parallelism × Option String :=
  if goEqualFold s "sequential" then (Sequential, none)
  else if goEqualFold s "parallel" then (Parallel, none)
  else if goEqualFold s "datacenter_aware" then (DatacenterAware, none)
  else (p, some ("invalid parallelism " ++ goQuote s))

/-- The defined `RunState` variants. -/
def runStateVariants : List RunState :=
  [NotStarted, Running, Error, Done, Paused, Aborted, Deleted]

/-- The defined `ScheduleState` variants. -/
def scheduleStateVariants : List ScheduleState := [SActive, SPaused, SDeleted]

/-- The defined `Parallelism` variants. -/
def parallelismVariants : List Parallelism := [Sequential, Parallel, DatacenterAware]

/-- Go `type RepairRun struct` (repair.go). `Intensity float64` is omitted (see
header); `*time.Time` fields are `Option Int` instants. -/
structure RepairRun where
  ID : Int
  Owner : String
  ClusterName : String
  KeyspaceName : String
  State : RunState
  Cause : String
  ColumnFamilies : List String
  TotalSegments : Int
  SegmentsRepaired : Int
  LastEvent : String
  Duration : String
  CreationTime : Option Int
  StartTime : Option Int
  EndTime : Option Int
  PauseTime : Option Int
deriving DecidableEq

/-- Go `type RepairSchedule struct` (schedule file). `Intensity float64` omitted. -/
structure RepairSchedule where
  ID : String
  Owner : String
  ClusterName : String
  KeyspaceName : String
  State : ScheduleState
  ColumnFamilies : List String
  IncrementalRepair : Bool
  RepairParallelism : Parallelism
  ScheduledDaysBetween : Int
  SegmentCount : Int
  CreationTime : Option Int
  PauseTime : Option Int
  NextActivation : Option Int
deriving DecidableEq

/-- Go `type Cluster struct` (cluster.go). -/
structure Cluster where
  Name : String
  SeedHosts : List String
  RepairRuns : List RepairRun
  RepairSchedules : List RepairSchedule
deriving DecidableEq

/-- Go `func contains(a, b []string) bool` (main.go): true iff some element of
`b` occurs in `a` (the Go code materializes `a` as a hash set first). -/
def contains (a b : List String) : Bool :=
  b.any (fun el => a.contains el)

/-- Go `type printClusterParams struct` (cluster.go). -/
structure printClusterParams where
  ShowRuns : Bool
  ShowSchedules : Bool
  FilterCFs : List String
  FilterRunState : RunState
  FilterScheduleState : ScheduleState
deriving DecidableEq

/-- The per-run retention test of the `ShowRuns` loop of `printCluster`
(cluster.go): a run is skipped when a non-empty column-family filter does not
overlap its column families, or when a non-empty run-state filter differs
from its state. -/
def printClusterKeepRun (params : printClusterParams) (run : RepairRun) : Bool :=
  if params.FilterCFs.length > 0 && !contains run.ColumnFamilies params.FilterCFs then false
  else if params.FilterRunState != "" && run.State != params.FilterRunState then false
  else true

/-- The list of runs `printCluster` prints, in order. -/
def printClusterRunsPrinted (c : Cluster) (params : printClusterParams) : List RepairRun :=
  if params.ShowRuns then c.RepairRuns.filter (printClusterKeepRun params) else []

/-- ASCII decimal digit test, as used by the Go `time.Parse` number scanner. -/
def isDigit (c : Char) : Bool :=
  48 ≤ c.toNat && c.toNat ≤ 57

/-- Numeric value of a digit character. -/
def digit (c : Char) : Nat :=
  c.toNat - 48

/-- A parsed calendar date (what `time.Parse("2006-01-02", s)` determines:
the layout has no time-of-day component). -/
structure CalDate where
  year : Nat
  month : Nat
  day : Nat
deriving DecidableEq

/-- Gregorian leap-year rule, as in the Go function `time.isLeap`. -/
def isLeap (y : Nat) : Bool :=
  y % 4 == 0 && (y % 100 != 0 || y % 400 == 0)

/-- Length of a month, as in the Go function `time.daysIn`. -/
def daysInMonth (y m : Nat) : Nat :=
  if m = 2 then (if isLeap y then 29 else 28)
  else if m = 4 ∨ m = 6 ∨ m = 9 ∨ m = 11 then 30
  else 31

/-- Go `time.Parse` with the fixed layout `2006-01-02` (`myTime.Set`, main.go),
on the character list of the input: exactly four digits, a hyphen, two
digits, a hyphen, two digits, and nothing after; the month must lie in
`1..12` and the day in `1..daysIn(month, year)` (the Go "month/day out of
range" checks). Any other input is a parse error (`none`). -/
def parseDateChars (cs : List Char) : Option CalDate :=
  match cs with
  | [y1, y2, y3, y4, h1, m1, m2, h2, d1, d2] =>
    if isDigit y1 && isDigit y2 && isDigit y3 && isDigit y4 && (h1 == '-')
        && isDigit m1 && isDigit m2 && (h2 == '-') && isDigit d1 && isDigit d2 then
      let y := ((digit y1 * 10 + digit y2) * 10 + digit y3) * 10 + digit y4
      let mo := digit m1 * 10 + digit m2
      let d := digit d1 * 10 + digit d2
      if 1 ≤ mo ∧ mo ≤ 12 ∧ 1 ≤ d ∧ d ≤ daysInMonth y mo then some ⟨y, mo, d⟩
      else none
    else none
  | _ => none

/-- Model of `myTime.Set` date parsing on strings. -/
def parseDate (s : String) : Option CalDate :=
  parseDateChars s.toList

/-- The `YYYY-MM-DD` surface shape of the spec: four digits, hyphen, two
digits, hyphen, two digits, nothing else. -/
def dateShapeChars (cs : List Char) : Bool :=
  match cs with
  | [y1, y2, y3, y4, h1, m1, m2, h2, d1, d2] =>
      isDigit y1 && isDigit y2 && isDigit y3 && isDigit y4 && (h1 == '-')
        && isDigit m1 && isDigit m2 && (h2 == '-') && isDigit d1 && isDigit d2
  | _ => false

/-- Lift of `dateShapeChars` to strings. -/
def dateShape (s : String) : Bool :=
  dateShapeChars s.toList

/-- The decimal digit character for `n` (defined for `n < 10`). -/
def digitChar (n : Nat) : Char :=
  match n with
  | 0 => '0' | 1 => '1' | 2 => '2' | 3 => '3' | 4 => '4'
  | 5 => '5' | 6 => '6' | 7 => '7' | 8 => '8' | _ => '9'

/-- Two-digit zero-padded rendering, as the Go `Format("01")`/`Format("02")`. -/
def pad2 (n : Nat) : List Char :=
  [digitChar (n / 10 % 10), digitChar (n % 10)]

/-- Four-digit zero-padded rendering, as the Go `Format("2006")`. -/
def pad4 (n : Nat) : List Char :=
  [digitChar (n / 1000 % 10), digitChar (n / 100 % 10), digitChar (n / 10 % 10),
   digitChar (n % 10)]

/-- Go `myTime.String()`: format the date back as `YYYY-MM-DD`. -/
def renderDate (dt : CalDate) : String :=
  String.mk (pad4 dt.year ++ '-' :: (pad2 dt.month ++ '-' :: pad2 dt.day))

/-- A calendar date the layout can express: 4-digit year, real month/day. -/
def validCalDate (dt : CalDate) : Prop :=
  dt.year ≤ 9999 ∧ 1 ≤ dt.month ∧ dt.month ≤ 12 ∧ 1 ≤ dt.day ∧
    dt.day ≤ daysInMonth dt.year dt.month

/-- Leap days strictly before year `y` (Gregorian, year ≥ 1). -/
def leapsBefore (y : Nat) : Nat :=
  (y - 1) / 4 + (y - 1) / 400 - (y - 1) / 100

/-- Days before month `m` in a non-leap year. -/
def daysBeforeMonthTable (m : Nat) : Nat :=
  match m with
  | 1 => 0 | 2 => 31 | 3 => 59 | 4 => 90 | 5 => 120 | 6 => 151
  | 7 => 181 | 8 => 212 | 9 => 243 | 10 => 273 | 11 => 304 | _ => 334

/-- Days before month `m` of year `y`. -/
def daysBeforeMonth (y m : Nat) : Nat :=
  daysBeforeMonthTable m + (if 3 ≤ m ∧ isLeap y then 1 else 0)

/-- The instant of a calendar date on the instant scale of the model: day count
since 0001-01-01, the Go zero time. In particular the zero `time.Time` is
instant `0`, so a flag parsed from `"0001-01-01"` is indistinguishable from
a never-set `myTime` (whose Go zero value also satisfies `IsZero()`). -/
def dateToDays (dt : CalDate) : Nat :=
  365 * (dt.year - 1) + leapsBefore dt.year + daysBeforeMonth dt.year dt.month + (dt.day - 1)

/-- Go `myTime.Set` end to end: parse the date and store the resulting instant;
`none` is the parse error. -/
def myTimeSet (s : String) : Option Int :=
  (parseDate s).map (fun dt => (dateToDays dt : Int))

/-- The state of a `myTime` flag after argument parsing: `none` when the flag
never occurred (the Go zero value), `some t` when it was set to instant `t`.
`time.Time.IsZero` holds for the zero value and for the zero instant. -/
def myTimeIsZero : Option Int → Bool
  | none => true
  | some t => t == 0

/-- The client-side filter flags of `listRepairs` (repair.go). `runState` is
sent server-side only and is not part of the client filter. -/
structure ListRepairsFlags where
  runState : RunState
  cluster : String
  keyspace : String
  tables : List String
  owner : String
  cause : String
  startAfter : Option Int
  startBefore : Option Int
deriving DecidableEq

/-- The retention test of the print loop of `listRepairs` (repair.go
lines 175-203): the `switch` skips (`continue`) a run when any of its cases
holds, so a run is printed iff every case is false. The `tables` case skips
a run when `contains(run.ColumnFamilies, flTables)` holds, i.e. when the
requested tables DO overlap the column families of the run. The two comparison
cases dereference `run.StartTime` only when the nil case before them fell
through; the `getD 0` default of the model is unreachable there. -/
def listRepairsKeep (fl : ListRepairsFlags) (run : RepairRun) : Bool :=
  if fl.cluster != "" && fl.cluster != run.ClusterName then false
  else if fl.keyspace != "" && fl.keyspace != run.KeyspaceName then false
  else if decide (fl.tables.length > 0) && contains run.ColumnFamilies fl.tables then false
  else if fl.owner != "" && fl.owner != run.Owner then false
  else if fl.cause != "" && fl.cause != run.Cause then false
  else if (!myTimeIsZero fl.startAfter || !myTimeIsZero fl.startBefore)
      && run.StartTime.isNone then false
  else if !myTimeIsZero fl.startAfter
      && decide (run.StartTime.getD 0 < fl.startAfter.getD 0) then false
  else if !myTimeIsZero fl.startBefore
      && decide (run.StartTime.getD 0 > fl.startBefore.getD 0) then false
  else true

/-- The list of runs `listRepairs` prints, in decode order. -/
def listRepairsPrinted (fl : ListRepairsFlags) (res : List RepairRun) : List RepairRun :=
  res.filter (listRepairsKeep fl)

/-- Modelled from the spec (the reading of claim C1, for comparison with the
code): a run is retained iff it passes every supplied filter, where the
column-family filter matches — i.e. passes — exactly when the requested
table set shares at least one element with the column-family set of the run. -/
def specListRepairsRetained (fl : ListRepairsFlags) (run : RepairRun) : Bool :=
  (fl.cluster == "" || fl.cluster == run.ClusterName) &&
  (fl.keyspace == "" || fl.keyspace == run.KeyspaceName) &&
  (decide (fl.tables.length = 0) || contains run.ColumnFamilies fl.tables) &&
  (fl.owner == "" || fl.owner == run.Owner) &&
  (fl.cause == "" || fl.cause == run.Cause) &&
  ((myTimeIsZero fl.startAfter && myTimeIsZero fl.startBefore) || run.StartTime.isSome) &&
  (myTimeIsZero fl.startAfter || decide (fl.startAfter.getD 0 ≤ run.StartTime.getD 0)) &&
  (myTimeIsZero fl.startBefore || decide (run.StartTime.getD 0 ≤ fl.startBefore.getD 0))

/-- Flags supplying only a tables filter `["cf1"]`. -/
def c1Flags : ListRepairsFlags := ⟨"", "", "", ["cf1"], "", "", none, none⟩

/-- A run whose column families contain the requested table `cf1`. -/
def c1Run : RepairRun :=
  ⟨1, "alice", "cl", "ks", Running, "cause", ["cf1", "cf2"], 10, 5, "", "",
   none, some 5, none, none⟩

/-- Flags whose start-after bound was supplied as `0001-01-01`: `myTime.Set`
stores the zero time, so `IsZero()` is true and the bound is ignored. -/
def c3Flags : ListRepairsFlags := ⟨"", "", "", [], "", "", some 0, none⟩

/-- A run with no start timestamp. -/
def c3Run : RepairRun :=
  ⟨2, "bob", "cl", "ks", Running, "", [], 10, 5, "", "", none, none, none, none⟩

/-- Constant `ScheduleSortByNextActivation` (schedule file). -/
def ScheduleSortByNextActivation : String := "next-activation"

/-- Go `func sortSchedules(res []RepairSchedule, sortBy ScheduleSortBy, reverse bool)`
(schedule file). The Go code calls `sort.Slice` with the strict comparator
`NextActivation.Before` (ascending) or `.After` (descending); `sort.Slice`
guarantees only that the result is a permutation ordered by the comparator
(order among equal keys unspecified), which `List.mergeSort` over the
reflexive closure of the comparator realizes. The Go comparator dereferences
`NextActivation` unconditionally (nil would crash); the `getD 0` default of the model
matters only for schedules without the timestamp, which the verified claims
exclude by precondition. -/
def sortSchedules (res : List RepairSchedule) (sortBy : String) (reverse : Bool) :
    List RepairSchedule :=
  if sortBy == ScheduleSortByNextActivation && !reverse then
    res.mergeSort (fun a b => decide (a.NextActivation.getD 0 ≤ b.NextActivation.getD 0))
  else if sortBy == ScheduleSortByNextActivation then
    res.mergeSort (fun a b => decide (b.NextActivation.getD 0 ≤ a.NextActivation.getD 0))
  else res

/-- Two concrete schedules for the C4 witness. -/
def demoSchedA : RepairSchedule :=
  ⟨"a", "o", "cl", "ks", SActive, [], false, Sequential, 7, 200, none, none, some 5⟩

def demoSchedB : RepairSchedule :=
  ⟨"b", "o", "cl", "ks", SActive, [], false, Sequential, 7, 200, none, none, some 3⟩

/-- An HTTP response as the client sees it: status code and full body. -/
structure HttpResponse where
  status : Nat
  body : String
deriving DecidableEq

/-- State of `resp.Body` wrapped by `rd := io.TeeReader(resp.Body, &buf)`
(cluster.go / repair.go / schedule file): the unread remainder and the
`bytes.Buffer` the tee writes into. Reads are modelled as one chunk, which
is exact for bodies within one `io.Copy` buffer. -/
structure TeeState where
  unread : String
  buf : String
deriving DecidableEq

/-- Read all of the tee reader: returns the data and writes it to `buf`. -/
def teeReadAll (st : TeeState) : String × TeeState :=
  (st.unread, ⟨"", st.buf ++ st.unread⟩)

/-- Model of `io.Copy(&buf, rd)`: drain `rd` (whose tee writes each chunk to `buf`)
and write what was read to `buf` as well. -/
def copyToBuf (st : TeeState) : TeeState :=
  let r := teeReadAll st
  ⟨r.2.unread, r.2.buf ++ r.1⟩

/-- What a response handler does next: fail with an error message
(`errors.Str(buf.String())`), or hand a raw JSON body to the decoder. -/
inductive RespStep where
  | fail (msg : String)
  | decodeJson (raw : String)
deriving DecidableEq

/-- The response handling of `viewRepair` (repair.go lines 234-243): tee the
body into `buf`; when the status is not 200, `io.Copy(&buf, rd)` and fail
with `buf.String()`; otherwise decode the body read through `rd`. -/
def viewRepairHandle (resp : HttpResponse) : RespStep :=
  let st : TeeState := ⟨resp.body, ""⟩
  if resp.status != 200 then RespStep.fail (copyToBuf st).buf
  else RespStep.decodeJson resp.body

/-- The response handling of `addRepair` (repair.go lines 446-452), which
expects 201 Created. -/
def addRepairHandle (resp : HttpResponse) : RespStep :=
  let st : TeeState := ⟨resp.body, ""⟩
  if resp.status != 201 then RespStep.fail (copyToBuf st).buf
  else RespStep.decodeJson resp.body

/-- The response handling of `listClusters` (cluster.go lines 23-45): the
body is decoded as JSON unconditionally — there is no status check at
all. -/
def listClustersHandle (resp : HttpResponse) : RespStep :=
  RespStep.decodeJson resp.body

/-- The command functions reachable from `main` via the `commands` map
(the trailing flag-based main in repair.go, lines 562-586), plus
`nextSchedule`, which is defined in the schedule file but nowhere
registered. -/
inductive CommandRef where
  | addCluster | viewCluster | listClusters
  | addRepair | viewRepair | listRepairs | pauseRepair | resumeRepair | deleteRepair
  | addSchedule | viewSchedule | listSchedules | pauseSchedule | resumeSchedule
  | deleteSchedule | nextSchedule
deriving DecidableEq

/-- Go `var commands = map[string]map[string]commandFn{...}`: the dispatch
table, verbatim from the source. -/
def commands : List (String × List (String × CommandRef)) :=
  [("cluster",
    [("add-cluster", CommandRef.addCluster),
     ("view-cluster", CommandRef.viewCluster),
     ("list-clusters", CommandRef.listClusters)]),
   ("repair",
    [("add-repair", CommandRef.addRepair),
     ("view-repair", CommandRef.viewRepair),
     ("list-repairs", CommandRef.listRepairs),
     ("pause-repair", CommandRef.pauseRepair),
     ("resume-repair", CommandRef.resumeRepair),
     ("delete-repair", CommandRef.deleteRepair)]),
   ("schedule",
    [("add-schedule", CommandRef.addSchedule),
     ("view-schedule", CommandRef.viewSchedule),
     ("list-schedules", CommandRef.listSchedules),
     ("pause-schedule", CommandRef.pauseSchedule),
     ("resume-schedule", CommandRef.resumeSchedule),
     ("delete-schedule", CommandRef.deleteSchedule)])]

/-- Go `func findCommand(name string) commandFn`: search every group for the
name; `none` models the nil return. -/
def findCommand (name : String) : Option CommandRef :=
  commands.findSome? (fun g => g.2.lookup name)

/-- Outcome of `fs.Parse(args)`: success, the distinguished `flag.ErrHelp`,
or any other parse error. -/
inductive ParseOutcome where
  | ok
  | helpRequested
  | failed (msg : String)
deriving DecidableEq

/-- What a command invocation returns. -/
inductive CmdResult where
  | success
  | parseFailed (msg : String)
  | failed (msg : String)
  | ioFailed (op : String)
deriving DecidableEq

/-- Observable behaviour of one command invocation: the requests it issued
(by URL) and its result. -/
structure CmdTrace where
  requests : List String
  result : CmdResult
deriving DecidableEq

/-- The three-way switch every subcommand in the source places right after
`fs.Parse(args)`:
`case err == flag.ErrHelp: return nil; case err != nil: return err`,
followed by the command body. `body` is the remaining behaviour of the command;
the help case returns success without reaching it. -/
def afterParse (p : ParseOutcome) (body : CmdTrace) : CmdTrace :=
  match p with
  | ParseOutcome.helpRequested => ⟨[], CmdResult.success⟩
  | ParseOutcome.failed e => ⟨[], CmdResult.parseFailed e⟩
  | ParseOutcome.ok => body

/-- Observable behaviour of `listRepairs` (repair.go), extended from the
filter model: the help/parse switch, then one GET to `/repair_run?` with the
optional server-side state parameter, the tee-buffered status check, the
JSON decode (`decoded` models the verdict of the decoder on the body), and the
client-side filter of the printed runs. -/
structure ListRepairsTrace where
  requests : List String
  printed : List RepairRun
  result : CmdResult
deriving DecidableEq

def listRepairsRun (p : ParseOutcome) (fl : ListRepairsFlags) (resp : HttpResponse)
    (decoded : Option (List RepairRun)) : ListRepairsTrace :=
  match p with
  | ParseOutcome.helpRequested => ⟨[], [], CmdResult.success⟩
  | ParseOutcome.failed e => ⟨[], [], CmdResult.parseFailed e⟩
  | ParseOutcome.ok =>
    let url := "/repair_run?" ++ (if fl.runState != "" then "state=" ++ fl.runState else "")
    if resp.status != 200 then
      ⟨[url], [], CmdResult.failed (copyToBuf ⟨resp.body, ""⟩).buf⟩
    else
      match decoded with
      | none => ⟨[url], [], CmdResult.ioFailed "listRepairs"⟩
      | some res => ⟨[url], listRepairsPrinted fl res, CmdResult.success⟩

/-- Observable behaviour of `viewCluster` (cluster.go): the help/parse
switch, the positional-argument check, one GET to `/cluster/{name}`, the
status check, the decode. -/
def viewClusterRun (p : ParseOutcome) (args : List String) (resp : HttpResponse)
    (decoded : Option Cluster) : CmdTrace :=
  match p with
  | ParseOutcome.helpRequested => ⟨[], CmdResult.success⟩
  | ParseOutcome.failed e => ⟨[], CmdResult.parseFailed e⟩
  | ParseOutcome.ok =>
    match args with
    | [] => ⟨[], CmdResult.failed "please provide a cluster name"⟩
    | name :: _ =>
      if resp.status != 200 then
        ⟨["/cluster/" ++ name], CmdResult.failed (copyToBuf ⟨resp.body, ""⟩).buf⟩
      else
        match decoded with
        | none => ⟨["/cluster/" ++ name], CmdResult.ioFailed "viewCluster"⟩
        | some _ => ⟨["/cluster/" ++ name], CmdResult.success⟩

/-! ## Theorems -/

/-- Cast from `goEqualFold` to an equation between foldings (definitional). -/
lemma fold_eq_of_goEqualFold {a b : String} (h : goEqualFold a b = true) :
    goFold a = goFold b :=
  eq_of_beq h

/-- On an unrecognized token, `RunState.Set` keeps the stored value and
returns the `invalid state %q` error. -/
lemma runStateSet_invalid (prev s : String)
    (h : ∀ v ∈ runStateVariants, goEqualFold s (RunState.string v) = false) :
    RunState.set prev s = (prev, some ("invalid state " ++ goQuote s)) := by
  have h1 : (goFold s == goFold "not_started") = false := h NotStarted (by decide)
  have h2 : (goFold s == goFold "running") = false := h Running (by decide)
  have h3 : (goFold s == goFold "error") = false := h Error (by decide)
  have h4 : (goFold s == goFold "done") = false := h Done (by decide)
  have h5 : (goFold s == goFold "paused") = false := h Paused (by decide)
  have h6 : (goFold s == goFold "aborted") = false := h Aborted (by decide)
  have h7 : (goFold s == goFold "deleted") = false := h Deleted (by decide)
  unfold RunState.set goEqualFold
  rw [h1, h2, h3, h4, h5, h6, h7]
  rfl

/-- On an unrecognized token, `ScheduleState.Set` keeps the stored value and
returns the `invalid state %q` error. -/
lemma scheduleStateSet_invalid (prev s : String)
    (h : ∀ v ∈ scheduleStateVariants, goEqualFold s (ScheduleState.string v) = false) :
    ScheduleState.set prev s = (prev, some ("invalid state " ++ goQuote s)) := by
  have h1 : (goFold s == goFold "active") = false := h SActive (by decide)
  have h2 : (goFold s == goFold "paused") = false := h SPaused (by decide)
  have h3 : (goFold s == goFold "deleted") = false := h SDeleted (by decide)
  unfold ScheduleState.set goEqualFold
  rw [h1, h2, h3]
  rfl

/-- On an unrecognized token, `Parallelism.Set` keeps the stored value and
returns the `invalid parallelism %q` error. -/
lemma parallelismSet_invalid (prev s : String)
    (h : ∀ v ∈ parallelismVariants, goEqualFold s (Parallelism.string v) = false) :
    Parallelism.set prev s = (prev, some ("invalid parallelism " ++ goQuote s)) := by
  have h1 : (goFold s == goFold "sequential") = false := h Sequential (by decide)
  have h2 : (goFold s == goFold "parallel") = false := h Parallel (by decide)
  have h3 : (goFold s == goFold "datacenter_aware") = false := h DatacenterAware (by decide)
  unfold Parallelism.set goEqualFold
  rw [h1, h2, h3]
  rfl

/-- C2: for every defined variant of each enum-like flag type (run state,
schedule state, parallelism), parsing the canonical serialization returns the
variant, parsing is case-insensitive (any token equal to a variant up to case
folding parses to that variant), and a token matching no defined variant
yields a validation error whose message names that token
(`invalid state %q` / `invalid parallelism %q`). -/
theorem C2_enum_flag_parsing :
    (∀ v ∈ runStateVariants, ∀ prev,
        RunState.set prev (RunState.string v) = (v, none)) ∧
    (∀ v ∈ runStateVariants, ∀ prev s, goEqualFold s (RunState.string v) = true →
        RunState.set prev s = (v, none)) ∧
    (∀ prev s, (∀ v ∈ runStateVariants, goEqualFold s (RunState.string v) = false) →
        RunState.set prev s = (prev, some ("invalid state " ++ goQuote s))) ∧
    (∀ v ∈ scheduleStateVariants, ∀ prev,
        ScheduleState.set prev (ScheduleState.string v) = (v, none)) ∧
    (∀ v ∈ scheduleStateVariants, ∀ prev s, goEqualFold s (ScheduleState.string v) = true →
        ScheduleState.set prev s = (v, none)) ∧
    (∀ prev s, (∀ v ∈ scheduleStateVariants, goEqualFold s (ScheduleState.string v) = false) →
        ScheduleState.set prev s = (prev, some ("invalid state " ++ goQuote s))) ∧
    (∀ v ∈ parallelismVariants, ∀ prev,
        Parallelism.set prev (Parallelism.string v) = (v, none)) ∧
    (∀ v ∈ parallelismVariants, ∀ prev s, goEqualFold s (Parallelism.string v) = true →
        Parallelism.set prev s = (v, none)) ∧
    (∀ prev s, (∀ v ∈ parallelismVariants, goEqualFold s (Parallelism.string v) = false) →
        Parallelism.set prev s = (prev, some ("invalid parallelism " ++ goQuote s))) := by
  refine ⟨?_, ?_, ?_, ?_, ?_, ?_, ?_, ?_, ?_⟩
  · intro v hv prev
    fin_cases hv <;> rfl
  · intro v hv prev s h
    fin_cases hv <;>
    · have hf := fold_eq_of_goEqualFold h
      unfold RunState.set goEqualFold
      rw [hf]
      rfl
  · exact runStateSet_invalid
  · intro v hv prev
    fin_cases hv <;> rfl
  · intro v hv prev s h
    fin_cases hv <;>
    · have hf := fold_eq_of_goEqualFold h
      unfold ScheduleState.set goEqualFold
      rw [hf]
      rfl
  · exact scheduleStateSet_invalid
  · intro v hv prev
    fin_cases hv <;> rfl
  · intro v hv prev s h
    fin_cases hv <;>
    · have hf := fold_eq_of_goEqualFold h
      unfold Parallelism.set goEqualFold
      rw [hf]
      rfl
  · exact parallelismSet_invalid

/-- Witness for C2 at concrete inputs: canonical and case-scrambled tokens
parse to the variant, unknown tokens yield the naming error. -/
theorem C2_enum_flag_parsing_witness :
    RunState.set "" "NOT_STARTED" = (NotStarted, none) ∧
    RunState.set NotStarted "rUnNiNg" = (Running, none) ∧
    ScheduleState.set "" "Active" = (SActive, none) ∧
    Parallelism.set "" "datacenter_aware" = (DatacenterAware, none) ∧
    RunState.set Running "bogus" = (Running, some ("invalid state " ++ goQuote "bogus")) ∧
    Parallelism.set "" "nope" = ("", some ("invalid parallelism " ++ goQuote "nope")) :=
  ⟨C2_enum_flag_parsing.1 NotStarted (by decide) "",
   C2_enum_flag_parsing.2.1 Running (by decide) NotStarted "rUnNiNg" (by decide),
   C2_enum_flag_parsing.2.2.2.2.1 SActive (by decide) "" "Active" (by decide),
   C2_enum_flag_parsing.2.2.2.2.2.2.2.1 DatacenterAware (by decide) "" "datacenter_aware"
     (by decide),
   C2_enum_flag_parsing.2.2.1 Running "bogus" (by decide),
   C2_enum_flag_parsing.2.2.2.2.2.2.2.2 "" "nope" (by decide)⟩

/-- C10: for every enum-like flag type and every previously stored value,
parsing a token matching no defined variant returns an error and leaves the
stored value unchanged. -/
theorem C10_invalid_token_keeps_value :
    (∀ prev s, (∀ v ∈ runStateVariants, goEqualFold s (RunState.string v) = false) →
        (RunState.set prev s).1 = prev ∧ (RunState.set prev s).2.isSome = true) ∧
    (∀ prev s, (∀ v ∈ scheduleStateVariants, goEqualFold s (ScheduleState.string v) = false) →
        (ScheduleState.set prev s).1 = prev ∧ (ScheduleState.set prev s).2.isSome = true) ∧
    (∀ prev s, (∀ v ∈ parallelismVariants, goEqualFold s (Parallelism.string v) = false) →
        (Parallelism.set prev s).1 = prev ∧ (Parallelism.set prev s).2.isSome = true) := by
  refine ⟨fun prev s h => ?_, fun prev s h => ?_, fun prev s h => ?_⟩
  · rw [runStateSet_invalid prev s h]
    exact ⟨rfl, rfl⟩
  · rw [scheduleStateSet_invalid prev s h]
    exact ⟨rfl, rfl⟩
  · rw [parallelismSet_invalid prev s h]
    exact ⟨rfl, rfl⟩

/-- Witness for C10 at concrete inputs. -/
theorem C10_invalid_token_keeps_value_witness :
    ((RunState.set Running "xyz").1 = Running ∧ (RunState.set Running "xyz").2.isSome = true) ∧
    ((ScheduleState.set SPaused "frozen").1 = SPaused ∧
      (ScheduleState.set SPaused "frozen").2.isSome = true) ∧
    ((Parallelism.set Sequential "serial").1 = Sequential ∧
      (Parallelism.set Sequential "serial").2.isSome = true) :=
  ⟨C10_invalid_token_keeps_value.1 Running "xyz" (by decide),
   C10_invalid_token_keeps_value.2.1 SPaused "frozen" (by decide),
   C10_invalid_token_keeps_value.2.2 Sequential "serial" (by decide)⟩

/-- C6: the column-family overlap test is true exactly on a shared element,
false on disjoint sets; a non-empty requested set never matches an empty
record set; and an empty requested set disables the filter in `printCluster`
(the retention of a run does not depend on its column families then). -/
theorem C6_overlap_test :
    (∀ a b, contains a b = true ↔ ∃ x, x ∈ b ∧ x ∈ a) ∧
    (∀ b, b ≠ [] → contains [] b = false) ∧
    (∀ params run cfs, params.FilterCFs = [] →
        printClusterKeepRun params run =
          printClusterKeepRun params { run with ColumnFamilies := cfs }) := by
  refine ⟨?_, ?_, ?_⟩
  · intro a b
    simp [contains, List.any_eq_true, List.elem_iff]
  · intro b _
    simp [contains]
  · intro params run cfs h
    simp [printClusterKeepRun, h]

/-- Witness for C6 at concrete inputs. -/
theorem C6_overlap_test_witness :
    (contains ["a", "b"] ["b", "z"] = true ↔ ∃ x, x ∈ ["b", "z"] ∧ x ∈ ["a", "b"]) ∧
    contains [] ["c"] = false ∧
    printClusterKeepRun ⟨true, false, [], "", ""⟩
        ⟨1, "o", "cl", "ks", Running, "c", ["cf1"], 10, 5, "", "", none, none, none, none⟩ =
      printClusterKeepRun ⟨true, false, [], "", ""⟩
        ⟨1, "o", "cl", "ks", Running, "c", ["other"], 10, 5, "", "", none, none, none, none⟩ :=
  ⟨C6_overlap_test.1 ["a", "b"] ["b", "z"],
   C6_overlap_test.2.1 ["c"] (by decide),
   C6_overlap_test.2.2 ⟨true, false, [], "", ""⟩
     ⟨1, "o", "cl", "ks", Running, "c", ["cf1"], 10, 5, "", "", none, none, none, none⟩
     ["other"] rfl⟩

lemma digit_digitChar (k : Nat) (h : k < 10) : digit (digitChar k) = k := by
  interval_cases k <;> rfl

lemma isDigit_digitChar (k : Nat) (h : k < 10) : isDigit (digitChar k) = true := by
  interval_cases k <;> rfl

lemma daysInMonth_le (y m : Nat) : daysInMonth y m ≤ 31 := by
  unfold daysInMonth
  split
  · split <;> omega
  · split <;> omega

/-- Anything the date parser accepts has the `YYYY-MM-DD` digit shape. -/
lemma shapeChars_of_parseChars (cs : List Char) (dt : CalDate)
    (h : parseDateChars cs = some dt) : dateShapeChars cs = true := by
  unfold parseDateChars at h
  split at h
  · split at h
    · rename_i hcond
      exact hcond
    · exact absurd h (by simp)
  · exact absurd h (by simp)

/-- The parser accepts the rendering of every expressible calendar date and
returns exactly that date. -/
lemma parse_render (dt : CalDate) (hv : validCalDate dt) :
    parseDate (renderDate dt) = some dt := by
  obtain ⟨hy, hm1, hm2, hd1, hd2⟩ := hv
  have hd31 : dt.day ≤ 31 := le_trans hd2 (daysInMonth_le _ _)
  have hdig : ∀ k : Nat, isDigit (digitChar (k % 10)) = true :=
    fun k => isDigit_digitChar _ (Nat.mod_lt _ (by norm_num))
  have hval : ∀ k : Nat, digit (digitChar (k % 10)) = k % 10 :=
    fun k => digit_digitChar _ (Nat.mod_lt _ (by norm_num))
  show parseDateChars (pad4 dt.year ++ '-' :: (pad2 dt.month ++ '-' :: pad2 dt.day)) = some dt
  unfold pad4 pad2
  simp only [List.cons_append, List.nil_append]
  unfold parseDateChars
  simp [hdig, hval]
  have ey : ((dt.year / 1000 % 10 * 10 + dt.year / 100 % 10) * 10 + dt.year / 10 % 10) * 10
      + dt.year % 10 = dt.year := by omega
  have em : dt.month / 10 % 10 * 10 + dt.month % 10 = dt.month := by omega
  have ed : dt.day / 10 % 10 * 10 + dt.day % 10 = dt.day := by omega
  rw [ey, em, ed]
  exact ⟨⟨hm1, hm2, hd1, hd2⟩, rfl⟩

/-- C7: date flag parsing accepts exactly the `YYYY-MM-DD` shape — whatever
it accepts has that shape, and it accepts the rendering of every expressible
calendar date, returning that date — and rejects other formats such as
`01-01-2020` and `2020/01/01` with an error. -/
theorem C7_date_flag_parsing :
    (∀ s dt, parseDate s = some dt → dateShape s = true) ∧
    (∀ dt, validCalDate dt → parseDate (renderDate dt) = some dt) ∧
    parseDate "01-01-2020" = none ∧ parseDate "2020/01/01" = none := by
  refine ⟨?_, parse_render, by decide, by decide⟩
  intro s dt h
  exact shapeChars_of_parseChars s.toList dt h

/-- Witness for C7 at a concrete date. -/
theorem C7_date_flag_parsing_witness :
    dateShape "2020-01-31" = true ∧ parseDate (renderDate ⟨2020, 1, 31⟩) = some ⟨2020, 1, 31⟩ :=
  ⟨C7_date_flag_parsing.1 "2020-01-31" ⟨2020, 1, 31⟩ (by decide),
   C7_date_flag_parsing.2.1 ⟨2020, 1, 31⟩ ⟨by decide, by decide, by decide, by decide, by decide⟩⟩

/-- C1 counterexample: with only a tables filter `["cf1"]` supplied, a run
whose column families contain `cf1` passes every filter under the any-overlap
reading of the claim, yet `listRepairs` does not print it — the code skips a
run exactly when `contains(run.ColumnFamilies, flTables)` holds. -/
theorem C1_conjunctive_filter_cex :
    specListRepairsRetained c1Flags c1Run = true ∧
      listRepairsKeep c1Flags c1Run = false := by
  decide

/-- C1 amended: `listRepairs` retention is conjunctive over the supplied
filters, but the tables filter passes exactly when the requested table set
does NOT share any element with the column-family set of the run (runs matching
any requested table are excluded); bounds of the date filter behave as in
C3. -/
theorem C1_conjunctive_filter_amended (fl : ListRepairsFlags) (run : RepairRun) :
    listRepairsKeep fl run = true ↔
      ((fl.cluster = "" ∨ fl.cluster = run.ClusterName) ∧
       (fl.keyspace = "" ∨ fl.keyspace = run.KeyspaceName) ∧
       (fl.tables = [] ∨ contains run.ColumnFamilies fl.tables = false) ∧
       (fl.owner = "" ∨ fl.owner = run.Owner) ∧
       (fl.cause = "" ∨ fl.cause = run.Cause) ∧
       ((myTimeIsZero fl.startAfter = false ∨ myTimeIsZero fl.startBefore = false) →
         run.StartTime ≠ none) ∧
       (myTimeIsZero fl.startAfter = false → fl.startAfter.getD 0 ≤ run.StartTime.getD 0) ∧
       (myTimeIsZero fl.startBefore = false → run.StartTime.getD 0 ≤ fl.startBefore.getD 0)) := by
  have hrw : ∀ (c a : Bool), (if c = true then false else a) = (!c && a) := by
    intro c a
    cases c <;> simp
  unfold listRepairsKeep
  simp only [hrw]
  simp [Int.not_lt, List.length_pos, not_or, List.length_eq_zero, Bool.not_eq_true',
    Bool.not_eq_false, Bool.not_eq_true, Option.isSome_iff_ne_none,
    Decidable.imp_iff_not_or]

/-- Witness for the amended C1 at a concrete input: with no filter supplied
every run is retained. -/
theorem C1_conjunctive_filter_amended_witness :
    listRepairsKeep ⟨"", "", "", [], "", "", none, none⟩ c1Run = true :=
  (C1_conjunctive_filter_amended ⟨"", "", "", [], "", "", none, none⟩ c1Run).mpr (by decide)

/-- C3 counterexample: the start-after bound is supplied as the (parseable)
date `0001-01-01`; its parsed instant is the Go zero time, so although a
bound was supplied and the start timestamp of the run is absent, the run is
retained — the code tests `IsZero()`, not "was the flag supplied". -/
theorem C3_date_range_cex :
    myTimeSet "0001-01-01" = some 0 ∧
      c3Flags.startAfter = some 0 ∧ c3Run.StartTime = none ∧
      listRepairsKeep c3Flags c3Run = true := by
  decide

/-- C3 amended: with the other filters unset, and reading "supplied" as
"supplied with a date other than 0001-01-01" (a bound equal to the zero
time is indistinguishable from an absent flag): if either bound is
so supplied and the start timestamp of the run is absent the run is excluded,
and when the timestamp is present the run passes exactly when it is not
before the lower bound and not after the upper bound (inclusive). -/
theorem C3_date_range_filtering (fl : ListRepairsFlags) (run : RepairRun)
    (hc : fl.cluster = "") (hk : fl.keyspace = "") (ht : fl.tables = [])
    (ho : fl.owner = "") (hca : fl.cause = "") :
    (((myTimeIsZero fl.startAfter = false ∨ myTimeIsZero fl.startBefore = false) ∧
        run.StartTime = none) → listRepairsKeep fl run = false) ∧
    (∀ t, run.StartTime = some t →
      (listRepairsKeep fl run = true ↔
        ((myTimeIsZero fl.startAfter = false → fl.startAfter.getD 0 ≤ t) ∧
         (myTimeIsZero fl.startBefore = false → t ≤ fl.startBefore.getD 0)))) := by
  constructor
  · rintro ⟨hb, hn⟩
    simp [listRepairsKeep, hc, hk, ht, ho, hca, hn]
    rcases hb with hb | hb <;> simp [hb]
  · intro t hts
    simp [listRepairsKeep, hc, hk, ht, ho, hca, hts]
    rcases ha : myTimeIsZero fl.startAfter <;> rcases hbf : myTimeIsZero fl.startBefore <;>
      simp [Int.not_lt]

/-- Witness for the amended C3 at concrete inputs: a non-zero bound plus an
absent start timestamp excludes the run. -/
theorem C3_date_range_filtering_witness :
    listRepairsKeep ⟨"", "", "", [], "", "", some 5, none⟩ c3Run = false :=
  (C3_date_range_filtering ⟨"", "", "", [], "", "", some 5, none⟩ c3Run
    rfl rfl rfl rfl rfl).1 ⟨Or.inl (by decide), rfl⟩

/-- C4: on schedules that all carry a next-activation timestamp, sorting by
next-activation is non-decreasing in that timestamp with the reverse flag
unset and non-increasing with it set, and both are permutations of the
input (in particular the sort is total — no crash — also for equal
timestamps). -/
theorem C4_sort_schedules (res : List RepairSchedule)
    (_h : ∀ s ∈ res, s.NextActivation.isSome = true) :
    ((sortSchedules res ScheduleSortByNextActivation false).Pairwise
        (fun a b => a.NextActivation.getD 0 ≤ b.NextActivation.getD 0) ∧
      (sortSchedules res ScheduleSortByNextActivation false).Perm res) ∧
    ((sortSchedules res ScheduleSortByNextActivation true).Pairwise
        (fun a b => b.NextActivation.getD 0 ≤ a.NextActivation.getD 0) ∧
      (sortSchedules res ScheduleSortByNextActivation true).Perm res) := by
  refine ⟨⟨?_, ?_⟩, ⟨?_, ?_⟩⟩
  · refine List.Pairwise.imp ?_ (List.sorted_mergeSort ?_ ?_ res)
    · intro a b hab
      exact of_decide_eq_true hab
    · intro a b c hab hbc
      simp only [decide_eq_true_eq] at hab hbc ⊢
      exact le_trans hab hbc
    · intro a b
      simp only [Bool.or_eq_true, decide_eq_true_eq]
      exact le_total _ _
  · exact List.mergeSort_perm res _
  · refine List.Pairwise.imp ?_ (List.sorted_mergeSort ?_ ?_ res)
    · intro a b hab
      exact of_decide_eq_true hab
    · intro a b c hab hbc
      simp only [decide_eq_true_eq] at hab hbc ⊢
      exact le_trans hbc hab
    · intro a b
      simp only [Bool.or_eq_true, decide_eq_true_eq]
      exact le_total _ _
  · exact List.mergeSort_perm res _

/-- Witness for C4 on a concrete two-element list. -/
theorem C4_sort_schedules_witness :
    (∀ s ∈ [demoSchedA, demoSchedB], s.NextActivation.isSome = true) ∧
    (((sortSchedules [demoSchedA, demoSchedB] ScheduleSortByNextActivation false).Pairwise
        (fun a b => a.NextActivation.getD 0 ≤ b.NextActivation.getD 0) ∧
      (sortSchedules [demoSchedA, demoSchedB] ScheduleSortByNextActivation false).Perm
        [demoSchedA, demoSchedB]) ∧
     ((sortSchedules [demoSchedA, demoSchedB] ScheduleSortByNextActivation true).Pairwise
        (fun a b => b.NextActivation.getD 0 ≤ a.NextActivation.getD 0) ∧
      (sortSchedules [demoSchedA, demoSchedB] ScheduleSortByNextActivation true).Perm
        [demoSchedA, demoSchedB])) :=
  ⟨by decide, C4_sort_schedules [demoSchedA, demoSchedB] (by decide)⟩

/-- C5 (code bug evaluation): at status 404 with body `"not found"`,
`viewRepair` fails with the body captured TWICE — the tee writes each chunk
to `buf` and `io.Copy(&buf, rd)` writes it to `buf` again — not with the
verbatim body; `addRepair` behaves the same for its 201 check; and
`listClusters` attempts a JSON decode of the error body instead of failing
at all. -/
theorem C5_error_body_doubled :
    viewRepairHandle ⟨404, "not found"⟩ = RespStep.fail "not foundnot found" ∧
    viewRepairHandle ⟨404, "not found"⟩ ≠ RespStep.fail "not found" ∧
    addRepairHandle ⟨500, "boom"⟩ = RespStep.fail "boomboom" ∧
    listClustersHandle ⟨404, "not found"⟩ = RespStep.decodeJson "not found" := by
  refine ⟨rfl, ?_, rfl, rfl⟩
  decide

/-- C8 (code bug evaluation): no subcommand name — in particular not
`next-schedule`, the name of its own flag set — dispatches to the
next-schedule operation: `nextSchedule` appears nowhere among the values of
the `commands` map, so `findCommand` can never return it. -/
theorem C8_next_schedule_unreachable :
    findCommand "next-schedule" = none ∧
    commands.all (fun g => g.2.all (fun c => c.2 != CommandRef.nextSchedule)) = true := by
  decide

/-- C9: when flag parsing reports the help-requested signal, a command
returns success — distinct from the parse-error outcome — and performs no
network request and no further action. Every subcommand in the source
repeats the identical post-`Parse` switch, modelled once by `afterParse`
(the first conjunct quantifies over every possible command body) and
instantiated by the full models of `listRepairs` and `viewCluster`. -/
theorem C9_help_is_success :
    (∀ body : CmdTrace, afterParse ParseOutcome.helpRequested body =
      ⟨[], CmdResult.success⟩) ∧
    (∀ e body, afterParse (ParseOutcome.failed e) body = ⟨[], CmdResult.parseFailed e⟩) ∧
    (∀ fl resp decoded, listRepairsRun ParseOutcome.helpRequested fl resp decoded =
      ⟨[], [], CmdResult.success⟩) ∧
    (∀ args resp decoded, viewClusterRun ParseOutcome.helpRequested args resp decoded =
      ⟨[], CmdResult.success⟩) :=
  ⟨fun _ => rfl, fun _ _ => rfl, fun _ _ _ => rfl, fun _ _ _ => rfl⟩

end Happyreaper
